import Mathlib

/-!
Verification development for the tool-opener backend
(`src/backend/src/toolOpener.py`).

The file shallowly embeds the two functions of the module:

* `open_tool` — the Flask request handler for `POST /api/open-tool`
  (source lines 65-78).  The handler reads `tool` from the JSON body,
  coerces `duration` with Python's `int(...)` (raising on a
  non-coercible value), looks the tool up in `TOOL_URLS`, answers
  `400 {"error": "Invalid tool"}` on a falsy lookup result, and
  otherwise starts a background thread and answers the `200`
  acknowledgment.

* `open_and_close_tool` — the background job (source lines 16-63).
  Its body runs under `try/except Exception`; the embedding models the
  body as a value of `Except String ResultDict` (an exception carries
  the `str(e)` message) together with the list of externally visible
  driver events performed, and models the `except` clause by totalising
  that value into the final state of the shared `result` dict.

Machine integers do not overflow here (Python integers are unbounded),
so durations are `Int`.
-/

/-- The static Resource Catalog `TOOL_URLS` (source lines 9-14). -/
def TOOL_URLS : List (String × String) :=
  [("gmail", "https://mail.google.com/"),
   ("calendar", "https://calendar.google.com/"),
   ("notion", "https://www.notion.so/"),
   ("tasks", "https://tasks.google.com/tasks/")]

/-- A JSON value supplied for `duration`: either a value that Python's
`int(...)` converts to the integer `n` (an integer, a numeric string, a
float, ...), or a value on which `int(...)` raises (a non-numeric
string, `null`, ...). -/
inductive JsonDur where
  | num (n : Int)
  | bad
deriving DecidableEq

/-- The parsed JSON body of a `POST /api/open-tool` request.
`tool = none` models both a body with no `tool` key and `tool: null`
(in both cases `data.get` yields Python `None`); `duration = none`
models an absent `duration` key. -/
structure OpenToolRequest where
  tool : Option String
  duration : Option JsonDur
deriving DecidableEq

/-- `int(data.get('duration', 60))` (source line 69): an absent key
defaults to `60`; a present value either converts or makes `int`
raise (`none`). -/
def intOfDuration : Option JsonDur → Option Int
  | none => some 60
  | some (JsonDur.num n) => some n
  | some JsonDur.bad => none

/-- Externally visible actions of the background job: the `osascript`
call that opens a tab on `url` (source line 39), the `time.sleep d`
(line 41), and the `osascript` call that closes the tab (line 55). -/
inductive Ev where
  | activate (url : String)
  | sleep (d : Int)
  | deactivate
deriving DecidableEq

/-- The shared `result` dict: its `status` entry and its optional
`error` entry (`none` when the key is absent). -/
structure ResultDict where
  status : String
  error : Option String
deriving DecidableEq

/-- `result = {'status': 'opening'}` (source line 74). -/
def initResult : ResultDict := { status := "opening", error := none }

/-- The environment a background job runs in: the value of
`platform.system()` and, for each of the three steps of the body,
whether that step raises an exception (`some msg` gives `str(e)`) or
returns normally (`none`).  `subprocess.run` without `check=True` only
signals failure to the caller by raising. -/
structure Env where
  platformSystem : String
  activateRaises : Option String
  sleepRaises : Option String
  deactivateRaises : Option String
deriving DecidableEq

/-- The message written on a non-macOS host (source line 19). -/
def macOnlyMsg : String := "This feature is only supported on macOS."

/-- The `try` body of `open_and_close_tool` (source lines 17-58):
the driver events it performs, and either its normal completion (the
state of `result` when the body returns) or the message of the
exception it raises.  No branch of the body writes to `result` before
a point at which it can raise, so the `result` seen by the `except`
clause is the one passed in. -/
def tryBody (env : Env) (url : String) (duration : Int)
    (result : ResultDict) : List Ev × Except String ResultDict :=
  if env.platformSystem ≠ "Darwin" then
    ([], Except.ok { result with error := some macOnlyMsg, status := "error" })
  else
    match env.activateRaises with
    | some e => ([Ev.activate url], Except.error e)
    | none =>
      match env.sleepRaises with
      | some e => ([Ev.activate url, Ev.sleep duration], Except.error e)
      | none =>
        match env.deactivateRaises with
        | some e =>
            ([Ev.activate url, Ev.sleep duration, Ev.deactivate],
             Except.error e)
        | none =>
            ([Ev.activate url, Ev.sleep duration, Ev.deactivate],
             Except.ok { result with status := "closed" })

/-- `open_and_close_tool` (source lines 16-63): the `try` body wrapped
in `except Exception as e`, which records `str(e)` in
`result['error']` and sets `result['status'] = 'error'` (lines 59-62).
Returns the events performed and the final state of `result`. -/
def open_and_close_tool (env : Env) (url : String) (duration : Int)
    (result : ResultDict) : List Ev × ResultDict :=
  match tryBody env url duration result with
  | (evs, Except.ok r) => (evs, r)
  | (evs, Except.error e) =>
      (evs, { result with error := some e, status := "error" })

/-- The successive states of one job's `result` dict, one entry per
completed phase transition.  Every control-flow path of
`open_and_close_tool` writes `result['status']` exactly once (lines
19-20, 57, or 61-62), so the record's lifecycle is its initial state
followed by the state after that single transition. -/
def jobHistory (env : Env) (url : String) (duration : Int) :
    List ResultDict :=
  [initResult, (open_and_close_tool env url duration initResult).2]

/-- A terminal phase of the record: `closed` (spec `Closed`) or
`error` (spec `Failed`). -/
def terminalStatus (s : ResultDict) : Bool :=
  s.status == "closed" || s.status == "error"

/-- Whether the environment makes the background job fail (any branch
other than the all-success path on macOS). -/
def failsOn (env : Env) : Prop :=
  env.platformSystem ≠ "Darwin" ∨ env.activateRaises ≠ none ∨
    env.sleepRaises ≠ none ∨ env.deactivateRaises ≠ none

instance (env : Env) : Decidable (failsOn env) := by
  unfold failsOn; infer_instance

/-- The outcome of the request handler: `raised` when an exception
escapes the handler (Flask then answers `500`), `badRequest` for the
`400 {"error": "Invalid tool"}` response with no thread started, and
`ok t d u` for the `200` acknowledgment
`{status: "Process started to open tool", tool: t, duration: d}`
with a background thread started on `(u, d)`. -/
inductive HandlerResult where
  | raised
  | badRequest
  | ok (tool : String) (duration : Int) (url : String)
deriving DecidableEq

/-- The request handler `open_tool` (source lines 65-78), in source
order: read `tool`, coerce `duration` (line 69, may raise), look `tool`
up in `TOOL_URLS` (line 70; `dict.get(None)` is `None` since `None` is
not a key), test `if not url` (line 71; also falsy for an empty
string), and either answer `400` or start the thread and answer the
acknowledgment. -/
def open_tool (req : OpenToolRequest) : HandlerResult :=
  match intOfDuration req.duration with
  | none => HandlerResult.raised
  | some duration =>
    match req.tool with
    | none => HandlerResult.badRequest
    | some t =>
      match List.lookup t TOOL_URLS with
      | none => HandlerResult.badRequest
      | some url =>
          if url = "" then HandlerResult.badRequest
          else HandlerResult.ok t duration url

/-- The background job started by the handler, when one is:
`some (url, duration)` exactly when a thread was spawned on these
arguments (source lines 74-76). -/
def startedJob : HandlerResult → Option (String × Int)
  | HandlerResult.ok _ d url => some (url, d)
  | _ => none

/-- Whether the handler produced the `200` acknowledgment. -/
def isAck : HandlerResult → Bool
  | HandlerResult.ok _ _ _ => true
  | _ => false

/-- C1 counterexample: the claim quantifies over every request whose
`tool` is not a catalog key, but for the request
`{tool: "zzz", duration: "abc"}` the `int(...)` coercion on line 69
raises before the lookup on line 70, so the handler does not return
the `400 {"error": "Invalid tool"}` response (Flask answers `500`). -/
theorem unknownTool_badDuration_not_400 :
    List.lookup "zzz" TOOL_URLS = none ∧
    open_tool ⟨some "zzz", some JsonDur.bad⟩ ≠ HandlerResult.badRequest ∧
    open_tool ⟨some "zzz", some JsonDur.bad⟩ = HandlerResult.raised := by
  decide

/-- C1 (amended): for every request whose `tool` value is not a key of
the Resource Catalog and whose `duration`, when present, is coercible
to an integer, the handler returns the `400 {"error": "Invalid tool"}`
response and no background job is started. -/
theorem unknownTool_rejected_400 (req : OpenToolRequest)
    (hdur : req.duration ≠ some JsonDur.bad)
    (htool : ∀ t, req.tool = some t → List.lookup t TOOL_URLS = none) :
    open_tool req = HandlerResult.badRequest ∧
      startedJob (open_tool req) = none := by
  have hd : ∃ d, intOfDuration req.duration = some d := by
    cases hdu : req.duration with
    | none => exact ⟨60, rfl⟩
    | some jd =>
      cases jd with
      | num n => exact ⟨n, rfl⟩
      | bad => exact absurd hdu hdur
  obtain ⟨d, hd⟩ := hd
  cases ht : req.tool with
  | none => simp [open_tool, hd, ht, startedJob]
  | some t =>
    have hl := htool t ht
    simp [open_tool, hd, ht, hl, startedJob]

/-- C1 witness. -/
theorem unknownTool_rejected_400_witness :
    open_tool ⟨some "zzz", none⟩ = HandlerResult.badRequest ∧
      startedJob (open_tool ⟨some "zzz", none⟩) = none :=
  unknownTool_rejected_400 ⟨some "zzz", none⟩ (by decide)
    (by intro t ht; injection ht with h; rw [← h]; decide)

/-- C2 counterexample: the claim quantifies over every request whose
`tool` is a catalog key, but for `{tool: "gmail", duration: "abc"}`
the `int(...)` coercion raises before anything else, so no `200`
acknowledgment is produced. -/
theorem knownTool_badDuration_no_ack :
    (List.lookup "gmail" TOOL_URLS).isSome = true ∧
    isAck (open_tool ⟨some "gmail", some JsonDur.bad⟩) = false ∧
    open_tool ⟨some "gmail", some JsonDur.bad⟩ = HandlerResult.raised := by
  decide

/-- C2 (amended): for every request whose `tool` value is a key of the
Resource Catalog and whose `duration`, when present, is coercible to
an integer, the handler returns the `200` acknowledgment carrying the
tool name and the coerced duration — the caller-supplied integer, or
`60` when unspecified.  `open_tool` takes no `Env`, so the
acknowledgment cannot depend on whether the background job later
fails. -/
theorem knownTool_acknowledged_200 (req : OpenToolRequest)
    (t url : String) (d : Int)
    (ht : req.tool = some t)
    (hu : List.lookup t TOOL_URLS = some url) (hne : url ≠ "")
    (hd : intOfDuration req.duration = some d) :
    open_tool req = HandlerResult.ok t d url ∧
      isAck (open_tool req) = true ∧
      startedJob (open_tool req) = some (url, d) ∧
      (req.duration = none → d = 60) ∧
      (∀ n, req.duration = some (JsonDur.num n) → d = n) := by
  have h1 : open_tool req = HandlerResult.ok t d url := by
    simp [open_tool, hd, ht, hu, hne]
  refine ⟨h1, by rw [h1]; rfl, by rw [h1]; rfl, ?_, ?_⟩
  · intro h0
    rw [h0] at hd
    simpa [intOfDuration] using hd.symm
  · intro n hn
    rw [hn] at hd
    simpa [intOfDuration] using hd.symm

/-- C2 witness. -/
theorem knownTool_acknowledged_200_witness :
    open_tool ⟨some "calendar", none⟩ =
        HandlerResult.ok "calendar" 60 "https://calendar.google.com/" ∧
      isAck (open_tool ⟨some "calendar", none⟩) = true ∧
      startedJob (open_tool ⟨some "calendar", none⟩) =
        some ("https://calendar.google.com/", 60) ∧
      ((none : Option JsonDur) = none → (60 : Int) = 60) ∧
      (∀ n, (none : Option JsonDur) = some (JsonDur.num n) → (60 : Int) = n) :=
  knownTool_acknowledged_200 ⟨some "calendar", none⟩ "calendar"
    "https://calendar.google.com/" 60 rfl (by decide) (by decide) rfl

/-- C3: on any host where `platform.system()` is not `"Darwin"`, the
background job records the environment-specific failure (status
`error` with the macOS-only message) and performs no driver event at
all — in particular `activate` is never called. -/
theorem unsupported_env_fails_without_activate (env : Env) (url : String)
    (d : Int) (h : env.platformSystem ≠ "Darwin") :
    (open_and_close_tool env url d initResult).2.status = "error" ∧
    (open_and_close_tool env url d initResult).2.error = some macOnlyMsg ∧
    (open_and_close_tool env url d initResult).1 = [] ∧
    (∀ u, Ev.activate u ∉ (open_and_close_tool env url d initResult).1) := by
  have hres : open_and_close_tool env url d initResult =
      ([], { initResult with error := some macOnlyMsg, status := "error" }) := by
    simp [open_and_close_tool, tryBody, h]
  rw [hres]
  exact ⟨rfl, rfl, rfl, by intro u hu; simp at hu⟩

/-- C3 witness. -/
theorem unsupported_env_fails_without_activate_witness :
    (open_and_close_tool ⟨"Linux", none, none, none⟩ "u" 5 initResult).2.status
        = "error" ∧
    (open_and_close_tool ⟨"Linux", none, none, none⟩ "u" 5 initResult).2.error
        = some macOnlyMsg ∧
    (open_and_close_tool ⟨"Linux", none, none, none⟩ "u" 5 initResult).1 = [] ∧
    (∀ u, Ev.activate u ∉
      (open_and_close_tool ⟨"Linux", none, none, none⟩ "u" 5 initResult).1) :=
  unsupported_env_fails_without_activate ⟨"Linux", none, none, none⟩ "u" 5
    (by decide)

/-- C4: on macOS, when the `activate` step raises, the job records the
driver's message with status `error`, and the trace is exactly the
`activate` call — neither the sleep nor `deactivate` happens. -/
theorem activate_failure_no_deactivate (env : Env) (url : String) (d : Int)
    (e : String) (hplat : env.platformSystem = "Darwin")
    (hact : env.activateRaises = some e) :
    (open_and_close_tool env url d initResult).2.status = "error" ∧
    (open_and_close_tool env url d initResult).2.error = some e ∧
    (open_and_close_tool env url d initResult).1 = [Ev.activate url] ∧
    Ev.deactivate ∉ (open_and_close_tool env url d initResult).1 ∧
    (∀ n, Ev.sleep n ∉ (open_and_close_tool env url d initResult).1) := by
  have hres : open_and_close_tool env url d initResult =
      ([Ev.activate url], { initResult with error := some e, status := "error" }) := by
    simp [open_and_close_tool, tryBody, hplat, hact]
  rw [hres]
  exact ⟨rfl, rfl, rfl, by simp, by intro n hn; simp at hn⟩

/-- C4 witness. -/
theorem activate_failure_no_deactivate_witness :
    (open_and_close_tool ⟨"Darwin", some "boom", none, none⟩ "u" 5
        initResult).2.status = "error" ∧
    (open_and_close_tool ⟨"Darwin", some "boom", none, none⟩ "u" 5
        initResult).2.error = some "boom" ∧
    (open_and_close_tool ⟨"Darwin", some "boom", none, none⟩ "u" 5
        initResult).1 = [Ev.activate "u"] ∧
    Ev.deactivate ∉ (open_and_close_tool ⟨"Darwin", some "boom", none, none⟩
        "u" 5 initResult).1 ∧
    (∀ n, Ev.sleep n ∉ (open_and_close_tool ⟨"Darwin", some "boom", none, none⟩
        "u" 5 initResult).1) :=
  activate_failure_no_deactivate ⟨"Darwin", some "boom", none, none⟩ "u" 5
    "boom" rfl rfl

/-- C5: for a job started by the handler (so `n` is the caller-supplied
duration) on a supported environment where `activate` and the sleep
return, the trace is exactly `activate`, then a sleep of exactly `n`,
then `deactivate` — activation strictly precedes the wait, which
strictly precedes deactivation — and when `deactivate` also returns,
the terminal status is `closed` with no error. -/
theorem success_path_order_and_closed (env : Env) (req : OpenToolRequest)
    (t url : String) (n : Int)
    (_hreq : open_tool req = HandlerResult.ok t n url)
    (hplat : env.platformSystem = "Darwin")
    (hact : env.activateRaises = none) (hslp : env.sleepRaises = none) :
    (open_and_close_tool env url n initResult).1 =
      [Ev.activate url, Ev.sleep n, Ev.deactivate] ∧
    (env.deactivateRaises = none →
      (open_and_close_tool env url n initResult).2.status = "closed" ∧
      (open_and_close_tool env url n initResult).2.error = none) := by
  cases hdea : env.deactivateRaises with
  | none =>
    refine ⟨?_, fun _ => ⟨?_, ?_⟩⟩ <;>
      simp [open_and_close_tool, tryBody, hplat, hact, hslp, hdea, initResult]
  | some e =>
    refine ⟨?_, fun h0 => ?_⟩
    · simp [open_and_close_tool, tryBody, hplat, hact, hslp, hdea]
    · exact absurd h0 (by simp)

/-- C5 witness. -/
theorem success_path_order_and_closed_witness :
    (open_and_close_tool ⟨"Darwin", none, none, none⟩
        "https://tasks.google.com/tasks/" 2 initResult).1 =
      [Ev.activate "https://tasks.google.com/tasks/", Ev.sleep 2,
       Ev.deactivate] ∧
    ((⟨"Darwin", none, none, none⟩ : Env).deactivateRaises = none →
      (open_and_close_tool ⟨"Darwin", none, none, none⟩
          "https://tasks.google.com/tasks/" 2 initResult).2.status = "closed" ∧
      (open_and_close_tool ⟨"Darwin", none, none, none⟩
          "https://tasks.google.com/tasks/" 2 initResult).2.error = none) :=
  success_path_order_and_closed ⟨"Darwin", none, none, none⟩
    ⟨some "tasks", some (JsonDur.num 2)⟩ "tasks"
    "https://tasks.google.com/tasks/" 2 (by decide) rfl rfl rfl

/-- C6: at every state of a job's lifecycle (one state per completed
transition of the record), the `error` entry is present exactly when
the status is `error` (the code's `Failed`), and — provided the
exception messages `str(e)` of the environment are non-empty, as the
code cannot influence them — an `error` status always carries a
non-empty message.  A `closed` status in particular never carries an
error. -/
theorem error_iff_failed (env : Env) (url : String) (d : Int)
    (hact : ∀ e, env.activateRaises = some e → e ≠ "")
    (hslp : ∀ e, env.sleepRaises = some e → e ≠ "")
    (hdea : ∀ e, env.deactivateRaises = some e → e ≠ "") :
    ∀ s ∈ jobHistory env url d,
      ((s.error ≠ none ↔ s.status = "error") ∧
       (s.status = "error" → ∃ m, s.error = some m ∧ m ≠ "")) := by
  intro s hs
  simp only [jobHistory, List.mem_cons, List.mem_singleton,
    List.not_mem_nil, or_false] at hs
  rcases hs with hs | hs
  · subst hs
    exact ⟨by simp [initResult], fun h => by simp [initResult] at h⟩
  · obtain ⟨ps, ar, sr, dr⟩ := env
    by_cases hps : ps = "Darwin"
    · subst hps
      cases ar with
      | some e =>
        have he := hact e rfl
        have hres : (open_and_close_tool ⟨"Darwin", some e, sr, dr⟩ url d
            initResult).2 = { status := "error", error := some e } := by
          simp [open_and_close_tool, tryBody, initResult]
        rw [hres] at hs
        subst hs
        exact ⟨by simp, fun _ => ⟨e, rfl, he⟩⟩
      | none =>
        cases sr with
        | some e =>
          have he := hslp e rfl
          have hres : (open_and_close_tool ⟨"Darwin", none, some e, dr⟩ url d
              initResult).2 = { status := "error", error := some e } := by
            simp [open_and_close_tool, tryBody, initResult]
          rw [hres] at hs
          subst hs
          exact ⟨by simp, fun _ => ⟨e, rfl, he⟩⟩
        | none =>
          cases dr with
          | some e =>
            have he := hdea e rfl
            have hres : (open_and_close_tool ⟨"Darwin", none, none, some e⟩
                url d initResult).2 =
                { status := "error", error := some e } := by
              simp [open_and_close_tool, tryBody, initResult]
            rw [hres] at hs
            subst hs
            exact ⟨by simp, fun _ => ⟨e, rfl, he⟩⟩
          | none =>
            have hres : (open_and_close_tool ⟨"Darwin", none, none, none⟩
                url d initResult).2 =
                { status := "closed", error := none } := by
              simp [open_and_close_tool, tryBody, initResult]
            rw [hres] at hs
            subst hs
            exact ⟨by simp, fun h => by simp at h⟩
    · have hres : (open_and_close_tool ⟨ps, ar, sr, dr⟩ url d initResult).2 =
          { status := "error", error := some macOnlyMsg } := by
        simp [open_and_close_tool, tryBody, hps, initResult]
      rw [hres] at hs
      subst hs
      exact ⟨by simp, fun _ => ⟨macOnlyMsg, rfl, by decide⟩⟩

/-- C6 witness. -/
theorem error_iff_failed_witness :
    (((jobHistory ⟨"Darwin", some "boom", none, none⟩ "u" 5).getD 1
        initResult).error ≠ none ↔
      ((jobHistory ⟨"Darwin", some "boom", none, none⟩ "u" 5).getD 1
        initResult).status = "error") ∧
    (((jobHistory ⟨"Darwin", some "boom", none, none⟩ "u" 5).getD 1
        initResult).status = "error" →
      ∃ m, ((jobHistory ⟨"Darwin", some "boom", none, none⟩ "u" 5).getD 1
        initResult).error = some m ∧ m ≠ "") :=
  error_iff_failed ⟨"Darwin", some "boom", none, none⟩ "u" 5
    (fun e he => by injection he with h; rw [← h]; decide)
    (fun e he => by exact absurd he (by simp))
    (fun e he => by exact absurd he (by simp))
    ((jobHistory ⟨"Darwin", some "boom", none, none⟩ "u" 5).getD 1 initResult)
    (by decide)

/-- C7: `closed` and `error` are terminal.  In every job lifecycle,
every state that has a successor is non-terminal (so no transition is
ever performed on a record that has reached `closed` or `error` — the
claim's rejection clause is vacuous, as the code never attempts a
post-terminal transition), and the last state of the lifecycle is
terminal. -/
theorem terminal_phases_final (env : Env) (url : String) (d : Int) :
    (∀ i : Nat, i + 1 < (jobHistory env url d).length →
       terminalStatus ((jobHistory env url d).getD i initResult) = false) ∧
    terminalStatus ((jobHistory env url d).getD
       ((jobHistory env url d).length - 1) initResult) = true := by
  constructor
  · intro i hi
    have hlen : (jobHistory env url d).length = 2 := rfl
    rw [hlen] at hi
    have hi0 : i = 0 := by omega
    subst hi0
    simp [jobHistory, terminalStatus, initResult]
  · obtain ⟨ps, ar, sr, dr⟩ := env
    by_cases hps : ps = "Darwin" <;> cases ar <;> cases sr <;> cases dr <;>
      simp [jobHistory, open_and_close_tool, tryBody, terminalStatus, hps]

/-- C7 witness. -/
theorem terminal_phases_final_witness :
    terminalStatus ((jobHistory ⟨"Linux", none, none, none⟩ "u" 5).getD 0
        initResult) = false ∧
    terminalStatus ((jobHistory ⟨"Linux", none, none, none⟩ "u" 5).getD
        ((jobHistory ⟨"Linux", none, none, none⟩ "u" 5).length - 1)
        initResult) = true :=
  ⟨(terminal_phases_final ⟨"Linux", none, none, none⟩ "u" 5).1 0 (by decide),
   (terminal_phases_final ⟨"Linux", none, none, none⟩ "u" 5).2⟩

/-- C8: every exception raised in the `try` body is caught and recorded
as the final state of the record (the background function returns
normally — nothing propagates to the caller's path, which received its
acknowledgment from `open_tool` independently of `Env`); the lifecycle
contains at most one `error` state; and it contains exactly one
`error` state precisely when the environment makes the job fail. -/
theorem failures_recorded_once_never_thrown (env : Env) (url : String)
    (d : Int) :
    (∀ e, (tryBody env url d initResult).2 = Except.error e →
       (open_and_close_tool env url d initResult).2 =
         { status := "error", error := some e }) ∧
    ((jobHistory env url d).countP (fun s => s.status == "error") ≤ 1) ∧
    (failsOn env ↔
      (jobHistory env url d).countP (fun s => s.status == "error") = 1) := by
  obtain ⟨ps, ar, sr, dr⟩ := env
  by_cases hps : ps = "Darwin" <;> cases ar <;> cases sr <;> cases dr <;>
    refine ⟨fun e he => ?_, ?_, ?_⟩ <;>
    simp_all [open_and_close_tool, tryBody, jobHistory, failsOn, initResult,
      List.countP_cons]

/-- C8 witness. -/
theorem failures_recorded_once_never_thrown_witness :
    (open_and_close_tool ⟨"Darwin", some "boom", none, none⟩ "u" 5
        initResult).2 = { status := "error", error := some "boom" } ∧
    (jobHistory ⟨"Darwin", some "boom", none, none⟩ "u" 5).countP
        (fun s => s.status == "error") = 1 :=
  ⟨(failures_recorded_once_never_thrown ⟨"Darwin", some "boom", none, none⟩
      "u" 5).1 "boom" rfl,
   (failures_recorded_once_never_thrown ⟨"Darwin", some "boom", none, none⟩
      "u" 5).2.2.mp (by decide)⟩

/-- C9 counterexample: for the request `{duration: "abc"}` with no
`tool` key, the `int(...)` coercion raises before the lookup, so the
handler does not return the `400 {"error": "Invalid tool"}`
response. -/
theorem missingTool_badDuration_not_400 :
    open_tool ⟨none, some JsonDur.bad⟩ ≠ HandlerResult.badRequest ∧
    open_tool ⟨none, some JsonDur.bad⟩ = HandlerResult.raised := by
  decide

/-- C9 (amended): for every request lacking the `tool` field (or
supplying `null`) whose `duration`, when present, is coercible to an
integer, the handler takes the same rejection path as an unknown
resource name (`TOOL_URLS.get(None)` yields no location) and returns
the `400 {"error": "Invalid tool"}` response with no job started. -/
theorem missingTool_rejected_400 (req : OpenToolRequest)
    (htool : req.tool = none) (hdur : req.duration ≠ some JsonDur.bad) :
    open_tool req = HandlerResult.badRequest ∧
      startedJob (open_tool req) = none := by
  have hd : ∃ d, intOfDuration req.duration = some d := by
    cases hdu : req.duration with
    | none => exact ⟨60, rfl⟩
    | some jd =>
      cases jd with
      | num n => exact ⟨n, rfl⟩
      | bad => exact absurd hdu hdur
  obtain ⟨d, hd⟩ := hd
  simp [open_tool, hd, htool, startedJob]

/-- C9 witness. -/
theorem missingTool_rejected_400_witness :
    open_tool ⟨none, some (JsonDur.num 3)⟩ = HandlerResult.badRequest ∧
      startedJob (open_tool ⟨none, some (JsonDur.num 3)⟩) = none :=
  missingTool_rejected_400 ⟨none, some (JsonDur.num 3)⟩ rfl (by decide)

/-- Inversion of the handler's success case: an acknowledgment
`ok t d url` can only arise with `d` the coerced duration. -/
theorem open_tool_ok_duration (req : OpenToolRequest) (t url : String)
    (d : Int) (h : open_tool req = HandlerResult.ok t d url) :
    intOfDuration req.duration = some d := by
  unfold open_tool at h
  split at h
  · exact absurd h (by simp)
  · rename_i d' hd'
    split at h
    · exact absurd h (by simp)
    · split at h
      · exact absurd h (by simp)
      · split at h
        · exact absurd h (by simp)
        · injection h with h1 h2 h3
          rw [hd', h2]

/-- C10: when `duration` is present but not coercible, the handler
raises at the coercion step — before the catalog lookup, so whatever
the `tool` value, no job is started and neither the `200`
acknowledgment nor the `400` response is produced; and when the
coercion yields `n`, any acknowledgment the handler produces carries
duration `n`, and the background job it starts sleeps exactly `n` when
it reaches the sleep. -/
theorem bad_duration_raises_before_lookup (req : OpenToolRequest) :
    (req.duration = some JsonDur.bad →
       open_tool req = HandlerResult.raised ∧
       startedJob (open_tool req) = none ∧
       open_tool req ≠ HandlerResult.badRequest ∧
       isAck (open_tool req) = false) ∧
    (∀ n t dd url, intOfDuration req.duration = some n →
       open_tool req = HandlerResult.ok t dd url →
       dd = n ∧
       ∀ env : Env, env.platformSystem = "Darwin" →
         env.activateRaises = none → env.sleepRaises = none →
         Ev.sleep n ∈ (open_and_close_tool env url dd initResult).1) := by
  constructor
  · intro h
    simp [open_tool, h, intOfDuration, startedJob, isAck]
  · intro n t dd url hn hok
    have hdd : dd = n := by
      have h2 := open_tool_ok_duration req t url dd hok
      rw [h2] at hn
      injection hn
    subst hdd
    refine ⟨rfl, fun env hplat hact hslp => ?_⟩
    cases hdea : env.deactivateRaises <;>
      simp [open_and_close_tool, tryBody, hplat, hact, hslp, hdea]

/-- C10 witness. -/
theorem bad_duration_raises_before_lookup_witness :
    open_tool ⟨some "gmail", some JsonDur.bad⟩ = HandlerResult.raised ∧
    Ev.sleep 7 ∈ (open_and_close_tool ⟨"Darwin", none, none, none⟩
        "https://mail.google.com/" 7 initResult).1 :=
  ⟨((bad_duration_raises_before_lookup
      ⟨some "gmail", some JsonDur.bad⟩).1 rfl).1,
   (((bad_duration_raises_before_lookup
      ⟨some "gmail", some (JsonDur.num 7)⟩).2 7 "gmail" 7
      "https://mail.google.com/" rfl (by decide)).2
      ⟨"Darwin", none, none, none⟩ rfl rfl rfl)⟩
